import Mathlib

/-!
Shallow embedding of `src/drive.py`, the RoboMaster keyboard-teleoperation
program, together with proofs about its controller state machine.

Modelling notes.  The Python floats in the source only ever hold values of
the form `gear * 0.2`, `-(gear * 0.2)`, `gear * 20`, `-(gear * 20)` or `0`
with `gear ∈ {1,…,5}`; the code never performs accumulating arithmetic on
them, it only assigns, copies (`[*self.v]`) and compares them for equality.
For these finitely many products the IEEE-754 doubles are pairwise distinct
exactly as the corresponding rationals are, so every equality test in the
code gives the same answer in the rational model.  Velocities are therefore
modelled with `ℚ`.

Python lists of length two (`self.v`, `self.v_gimbal`, …) are modelled as
pairs; `pynput` key objects as the inductive `Key`, where `Key.other n`
stands for any key the handlers do not distinguish; the `rm.Commander`
capability is modelled by recording the list of commands a handler emits.
-/

namespace Drive

/-- Constant `Controller.UNIT_DELTA_SPEED = 0.2` from the source. -/
def UNIT_DELTA_SPEED : ℚ := 1 / 5

/-- Constant `Controller.UNIT_DELTA_DEGREE = 20` from the source. -/
def UNIT_DELTA_DEGREE : ℚ := 20

/-- The commands the program issues through the `rm.Commander` capability. -/
inductive Command where
  | chassis_speed (x y z : ℚ)
  | gimbal_speed (pitch yaw : ℚ)
  | blaster_fire
  deriving DecidableEq

/-- The keys that `Controller.on_press` / `Controller.on_release`
distinguish.  `digit d` stands for `KeyCode(char=str(d))`; `other n` is any
key the handlers never name (unrecognized input). -/
inductive Key where
  | ctrl
  | charC
  | space
  | charW
  | charS
  | charA
  | charD
  | up
  | down
  | left
  | right
  | digit (d : Nat)
  | other (code : Nat)
  deriving DecidableEq

/-- The mutable fields set up by `Controller.__init__` (the `cmd` and
`logger` collaborators and the lock are not data). -/
structure Controller where
  gear : Nat
  delta_v : ℚ
  delta_d : ℚ
  v : ℚ × ℚ
  previous_v : ℚ × ℚ
  v_gimbal : ℚ × ℚ
  previous_v_gimbal : ℚ × ℚ
  ctrl_pressed : Bool
  deriving DecidableEq

/-- The state `Controller.__init__` builds: gear 1, unit deltas, all
velocities and previously-sent velocities zero, ctrl not pressed. -/
def initController : Controller where
  gear := 1
  delta_v := UNIT_DELTA_SPEED
  delta_d := UNIT_DELTA_DEGREE
  v := (0, 0)
  previous_v := (0, 0)
  v_gimbal := (0, 0)
  previous_v_gimbal := (0, 0)
  ctrl_pressed := false

/-- Method `Controller.send_command`: if `v` differs from `previous_v`, record the
new `previous_v` and emit a chassis-speed command (with rotation 0); then
the same, independently, for the gimbal pair.  Returns the updated state
and the list of emitted commands, in emission order. -/
def send_command (c : Controller) : Controller × List Command :=
  let p1 : Controller × List Command :=
    if c.v = c.previous_v then (c, [])
    else ({ c with previous_v := c.v }, [Command.chassis_speed c.v.1 c.v.2 0])
  let c1 := p1.1
  if c1.v_gimbal = c1.previous_v_gimbal then (c1, p1.2)
  else ({ c1 with previous_v_gimbal := c1.v_gimbal },
        p1.2 ++ [Command.gimbal_speed c1.v_gimbal.1 c1.v_gimbal.2])

/-- Method `Controller._update_gear` (named without the leading
underscore): set the gear and recompute both per-press
magnitudes from it. -/
def update_gear (c : Controller) (gear : Nat) : Controller :=
  { c with
      gear := gear
      delta_v := (gear : ℚ) * UNIT_DELTA_SPEED
      delta_d := (gear : ℚ) * UNIT_DELTA_DEGREE }

/-- Method `Controller.on_press`.  The result is the new state, the commands
emitted during the handler, and whether the handler signals the keyboard
listener to stop (Python `return False`). -/
def on_press (c : Controller) (k : Key) : Controller × List Command × Bool :=
  if k = Key.ctrl then
    ({ c with ctrl_pressed := true }, ([], false))
  else if c.ctrl_pressed ∧ k = Key.charC then
    let c1 := { c with v := (0, 0), v_gimbal := (0, 0) }
    let r := send_command c1
    (r.1, (r.2, true))
  else if k = Key.space then
    (c, ([Command.blaster_fire], false))
  else
    let c1 :=
      match k with
      | Key.charW => { c with v := (c.delta_v, c.v.2) }
      | Key.charS => { c with v := (-c.delta_v, c.v.2) }
      | Key.charA => { c with v := (c.v.1, -c.delta_v) }
      | Key.charD => { c with v := (c.v.1, c.delta_v) }
      | Key.up => { c with v_gimbal := (c.delta_d, c.v_gimbal.2) }
      | Key.down => { c with v_gimbal := (-c.delta_d, c.v_gimbal.2) }
      | Key.left => { c with v_gimbal := (c.v_gimbal.1, -c.delta_d) }
      | Key.right => { c with v_gimbal := (c.v_gimbal.1, c.delta_d) }
      | _ => c
    let r := send_command c1
    (r.1, (r.2, false))

/-- Whether a key is one of the five gear keys `'1'`…`'5'` that
`Controller.on_release` recognizes. -/
def isGearKey : Key → Bool
  | Key.digit d => 1 ≤ d && d ≤ 5
  | _ => false

/-- Python `int(key.char)` for a digit key. -/
def gearOf : Key → Nat
  | Key.digit d => d
  | _ => 0

/-- Method `Controller.on_release`.  Release handlers never stop the listener, so
the stop flag is always `false`. -/
def on_release (c : Controller) (k : Key) : Controller × List Command × Bool :=
  if k = Key.ctrl then
    ({ c with ctrl_pressed := false }, ([], false))
  else if isGearKey k then
    (update_gear c (gearOf k), ([], false))
  else
    let c1 :=
      if k = Key.charW ∨ k = Key.charS then { c with v := (0, c.v.2) }
      else if k = Key.charA ∨ k = Key.charD then { c with v := (c.v.1, 0) }
      else if k = Key.up ∨ k = Key.down then { c with v_gimbal := (0, c.v_gimbal.2) }
      else if k = Key.left ∨ k = Key.right then { c with v_gimbal := (c.v_gimbal.1, 0) }
      else c
    let r := send_command c1
    (r.1, (r.2, false))

/-- Messages on the event queue: `rm.ArmorHitEvent`, `rm.SoundEvent`, or
anything else the listener might deliver. -/
inductive RobotEvent where
  | armor_hit
  | sound (kind : Nat)
  | other (raw : Nat)
  deriving DecidableEq

/-- Telemetry push messages are only logged by `handle_event`; their
content never matters, so they are left abstract. -/
def TelemetryMessage : Type := Nat

/-- The `type(event) == rm.ArmorHitEvent` test in `handle_event`. -/
def isArmorHit : RobotEvent → Bool
  | RobotEvent.armor_hit => true
  | _ => false

/-- Function `handle_event`: one poll cycle.  Each queue yields at most one message
(`none` models `queue.Empty`).  The push message is only logged; an
`ArmorHitEvent` on the event queue triggers `cmd.chassis_speed(0, 0, 0)`;
every other event is only logged. -/
def handle_event (push : Option TelemetryMessage) (event : Option RobotEvent) :
    List Command :=
  match push, event with
  | _, some e => if isArmorHit e then [Command.chassis_speed 0 0 0] else []
  | _, none => []

/-- System-level view of one `handle_event` poll cycle: the event handler
runs in a separate `Mind` worker and holds no reference to the
`Controller`, so the controller state passes through untouched while the
safety command goes straight to the command capability. -/
def safety_step (c : Controller) (push : Option TelemetryMessage)
    (event : Option RobotEvent) : Controller × List Command :=
  (c, handle_event push event)

/-- Controller states reachable from `initController` by any finite
sequence of key press and release events. -/
inductive Reachable : Controller → Prop where
  | init : Reachable initController
  | press {c : Controller} (k : Key) : Reachable c → Reachable (on_press c k).1
  | release {c : Controller} (k : Key) : Reachable c → Reachable (on_release c k).1

/-- Whether a command is a chassis-speed command. -/
def isChassisCmd : Command → Bool
  | Command.chassis_speed _ _ _ => true
  | _ => false

/-- Whether a command is a gimbal-speed command. -/
def isGimbalCmd : Command → Bool
  | Command.gimbal_speed _ _ => true
  | _ => false

/-- A command either is not a chassis-speed command or has rotation
component zero. -/
def rotationZero : Command → Bool
  | Command.chassis_speed _ _ z => z = 0
  | _ => true

/-- The eight single-axis movement keys. -/
def isAxisKey : Key → Bool
  | Key.charW | Key.charS | Key.charA | Key.charD => true
  | Key.up | Key.down | Key.left | Key.right => true
  | _ => false

/-- The velocity component an axis key controls. -/
def axisComponent (k : Key) (c : Controller) : ℚ :=
  match k with
  | Key.charW | Key.charS => c.v.1
  | Key.charA | Key.charD => c.v.2
  | Key.up | Key.down => c.v_gimbal.1
  | Key.left | Key.right => c.v_gimbal.2
  | _ => 0

/-- Keys the handlers never map: any `other` key, and digit keys outside
`'1'`…`'5'`. -/
def isUnmappedKey : Key → Bool
  | Key.other _ => true
  | Key.digit d => !(1 ≤ d && d ≤ 5)
  | _ => false

/-- A chassis velocity component that some gear in `{1,…,5}` can produce:
`0` or `±g·UNIT_DELTA_SPEED`. -/
def inSpeedRange (q : ℚ) : Prop :=
  q = 0 ∨ ∃ g ∈ Finset.Icc (1 : ℕ) 5,
    (q = (g : ℚ) * UNIT_DELTA_SPEED ∨ q = -((g : ℚ) * UNIT_DELTA_SPEED))

/-- A gimbal velocity component that some gear in `{1,…,5}` can produce:
`0` or `±g·UNIT_DELTA_DEGREE`. -/
def inDegreeRange (q : ℚ) : Prop :=
  q = 0 ∨ ∃ g ∈ Finset.Icc (1 : ℕ) 5,
    (q = (g : ℚ) * UNIT_DELTA_DEGREE ∨ q = -((g : ℚ) * UNIT_DELTA_DEGREE))

/-- All the state invariants the handlers maintain: gear in range, the
per-press magnitudes derived from the gear, last-sent velocities in sync
with the current ones, and every component produced by some gear. -/
def GoodState (c : Controller) : Prop :=
  1 ≤ c.gear ∧ c.gear ≤ 5 ∧
  c.delta_v = (c.gear : ℚ) * UNIT_DELTA_SPEED ∧
  c.delta_d = (c.gear : ℚ) * UNIT_DELTA_DEGREE ∧
  c.v = c.previous_v ∧ c.v_gimbal = c.previous_v_gimbal ∧
  inSpeedRange c.v.1 ∧ inSpeedRange c.v.2 ∧
  inDegreeRange c.v_gimbal.1 ∧ inDegreeRange c.v_gimbal.2

/-! ### Basic lemmas about `send_command` -/

/-- After `send_command`, both previous-sent values equal the current
velocities, and nothing else changed. -/
theorem send_command_state (c : Controller) :
    (send_command c).1 = { c with previous_v := c.v, previous_v_gimbal := c.v_gimbal } := by
  obtain ⟨g, dv, dd, v, pv, vg, pvg, cp⟩ := c
  by_cases h1 : v = pv <;> by_cases h2 : vg = pvg <;>
    simp [send_command, h1, h2]

/-- The commands `send_command` emits: a chassis command exactly when the
chassis pair changed, then a gimbal command exactly when the gimbal pair
changed. -/
theorem send_command_cmds (c : Controller) :
    (send_command c).2 =
      (if c.v = c.previous_v then [] else [Command.chassis_speed c.v.1 c.v.2 0]) ++
      (if c.v_gimbal = c.previous_v_gimbal then [] else
        [Command.gimbal_speed c.v_gimbal.1 c.v_gimbal.2]) := by
  obtain ⟨g, dv, dd, v, pv, vg, pvg, cp⟩ := c
  by_cases h1 : v = pv <;> by_cases h2 : vg = pvg <;>
    simp [send_command, h1, h2]

/-- When both pairs are already in sync, `send_command` is a no-op. -/
theorem send_command_noop {c : Controller} (h1 : c.v = c.previous_v)
    (h2 : c.v_gimbal = c.previous_v_gimbal) : send_command c = (c, []) := by
  obtain ⟨g, dv, dd, v, pv, vg, pvg, cp⟩ := c
  simp_all [send_command]

/-! ### Range helper lemmas -/

theorem inSpeedRange_zero : inSpeedRange 0 := Or.inl rfl

theorem inDegreeRange_zero : inDegreeRange 0 := Or.inl rfl

theorem inSpeedRange_gear {g : Nat} (h1 : 1 ≤ g) (h2 : g ≤ 5) :
    inSpeedRange ((g : ℚ) * UNIT_DELTA_SPEED) :=
  Or.inr ⟨g, Finset.mem_Icc.mpr ⟨h1, h2⟩, Or.inl rfl⟩

theorem inSpeedRange_gear_neg {g : Nat} (h1 : 1 ≤ g) (h2 : g ≤ 5) :
    inSpeedRange (-((g : ℚ) * UNIT_DELTA_SPEED)) :=
  Or.inr ⟨g, Finset.mem_Icc.mpr ⟨h1, h2⟩, Or.inr rfl⟩

theorem inDegreeRange_gear {g : Nat} (h1 : 1 ≤ g) (h2 : g ≤ 5) :
    inDegreeRange ((g : ℚ) * UNIT_DELTA_DEGREE) :=
  Or.inr ⟨g, Finset.mem_Icc.mpr ⟨h1, h2⟩, Or.inl rfl⟩

theorem inDegreeRange_gear_neg {g : Nat} (h1 : 1 ≤ g) (h2 : g ≤ 5) :
    inDegreeRange (-((g : ℚ) * UNIT_DELTA_DEGREE)) :=
  Or.inr ⟨g, Finset.mem_Icc.mpr ⟨h1, h2⟩, Or.inr rfl⟩

/-! ### The reachability invariant -/

/-- The initial state satisfies all the invariants. -/
theorem goodState_init : GoodState initController := by
  simp [GoodState, initController, inSpeedRange_zero, inDegreeRange_zero]

/-- Pressing any key preserves all the invariants. -/
theorem goodState_press {c : Controller} (k : Key) (h : GoodState c) :
    GoodState (on_press c k).1 := by
  obtain ⟨h1, h2, h3, h4, h5, h6, h7, h8, h9, h10⟩ := h
  cases k <;>
    simp only [on_press, send_command_state] <;>
    simp_all [GoodState, inSpeedRange_zero, inDegreeRange_zero,
      inSpeedRange_gear h1 h2, inSpeedRange_gear_neg h1 h2,
      inDegreeRange_gear h1 h2, inDegreeRange_gear_neg h1 h2]
  split <;>
    simp_all [GoodState, send_command_state, inSpeedRange_zero, inDegreeRange_zero]

/-- Releasing any key preserves all the invariants. -/
theorem goodState_release {c : Controller} (k : Key) (h : GoodState c) :
    GoodState (on_release c k).1 := by
  obtain ⟨h1, h2, h3, h4, h5, h6, h7, h8, h9, h10⟩ := h
  cases k <;>
    simp only [on_release, isGearKey, gearOf, update_gear, send_command_state] <;>
    (try split_ifs) <;>
    simp_all [GoodState, inSpeedRange_zero, inDegreeRange_zero]

/-- Every reachable state satisfies all the invariants. -/
theorem reachable_goodState {c : Controller} (h : Reachable c) : GoodState c := by
  induction h with
  | init => exact goodState_init
  | press k _ ih => exact goodState_press k ih
  | release k _ ih => exact goodState_release k ih

/-- Commands from `send_command` always carry rotation 0. -/
theorem all_rotationZero_send (c : Controller) :
    (send_command c).2.all rotationZero = true := by
  rw [send_command_cmds]
  by_cases h1 : c.v = c.previous_v <;> by_cases h2 : c.v_gimbal = c.previous_v_gimbal <;>
    simp [h1, h2, rotationZero]

/-! ### Claim theorems -/

/-- C1: `send_command` issues a chassis-speed command exactly when
`chassisVelocity` differs from `previousChassisVelocity` at call time, that
command carries the current velocity, and `previous_v` is then updated to
the sent value; the same holds independently for the gimbal pair.  Running
`send_command` again with unchanged velocities — reaching the same value
twice in a row — emits nothing, so each value change produces exactly one
command per axis group. -/
theorem send_command_change_detection (c : Controller) :
    ((send_command c).2.filter isChassisCmd =
      if c.v = c.previous_v then [] else [Command.chassis_speed c.v.1 c.v.2 0]) ∧
    ((send_command c).2.filter isGimbalCmd =
      if c.v_gimbal = c.previous_v_gimbal then [] else
        [Command.gimbal_speed c.v_gimbal.1 c.v_gimbal.2]) ∧
    (send_command c).1.previous_v = c.v ∧
    (send_command c).1.previous_v_gimbal = c.v_gimbal ∧
    send_command (send_command c).1 = ((send_command c).1, []) := by
  refine ⟨?_, ?_, ?_, ?_, ?_⟩
  · rw [send_command_cmds]
    by_cases h1 : c.v = c.previous_v <;> by_cases h2 : c.v_gimbal = c.previous_v_gimbal <;>
      simp [h1, h2, isChassisCmd]
  · rw [send_command_cmds]
    by_cases h1 : c.v = c.previous_v <;> by_cases h2 : c.v_gimbal = c.previous_v_gimbal <;>
      simp [h1, h2, isGimbalCmd]
  · rw [send_command_state]
  · rw [send_command_state]
  · exact send_command_noop (by rw [send_command_state]) (by rw [send_command_state])

/-- C9: in the initial state and after every completed handler, the current
velocity pairs agree with the previously-sent ones, so a handler that
changes nothing makes `send_command` a no-op. -/
theorem reachable_sync {c : Controller} (h : Reachable c) :
    c.v = c.previous_v ∧ c.v_gimbal = c.previous_v_gimbal ∧
    send_command c = (c, []) := by
  obtain ⟨-, -, -, -, h5, h6, -, -, -, -⟩ := reachable_goodState h
  exact ⟨h5, h6, send_command_noop h5 h6⟩

/-- C9 witness: the invariant at a concrete reachable state (after pressing
`'w'` from the initial state). -/
theorem reachable_sync_witness :
    (on_press initController Key.charW).1.v =
      (on_press initController Key.charW).1.previous_v ∧
    (on_press initController Key.charW).1.v_gimbal =
      (on_press initController Key.charW).1.previous_v_gimbal ∧
    send_command (on_press initController Key.charW).1 =
      ((on_press initController Key.charW).1, []) :=
  reachable_sync (Reachable.press Key.charW Reachable.init)

/-- C10: every chassis-speed command emitted by a press handler, a release
handler, or the event-poll safety path has rotation component 0: the core
never commands chassis rotation. -/
theorem commands_rotation_free (c : Controller) (k : Key)
    (push : Option TelemetryMessage) (event : Option RobotEvent) :
    ((on_press c k).2.1.all rotationZero = true) ∧
    ((on_release c k).2.1.all rotationZero = true) ∧
    ((handle_event push event).all rotationZero = true) := by
  refine ⟨?_, ?_, ?_⟩
  · cases k <;> simp only [on_press] <;> (try split_ifs) <;>
      simp [all_rotationZero_send, rotationZero]
  · cases k <;> simp only [on_release] <;> (try split_ifs) <;>
      simp [all_rotationZero_send, rotationZero]
  · match event with
    | none => simp [handle_event]
    | some e => cases e <;> simp [handle_event, isArmorHit, rotationZero]

/-- C3: one poll cycle of `handle_event`: an `ArmorHit` message on the event
queue yields exactly the zero chassis-speed command, whatever the controller
state; any other event kind, or an empty queue, yields no command. -/
theorem handle_event_safety (c : Controller) (push : Option TelemetryMessage) :
    safety_step c push (some RobotEvent.armor_hit) =
      (c, [Command.chassis_speed 0 0 0]) ∧
    (∀ e : RobotEvent, isArmorHit e = false → safety_step c push (some e) = (c, [])) ∧
    safety_step c push none = (c, []) := by
  refine ⟨?_, ?_, ?_⟩
  · simp [safety_step, handle_event, isArmorHit]
  · intro e he
    simp [safety_step, handle_event, he]
  · simp [safety_step, handle_event]

/-- C3 witness: the theorem at concrete inputs — an armor hit, a sound
event and an empty queue. -/
theorem handle_event_safety_witness :
    safety_step initController none (some RobotEvent.armor_hit) =
      (initController, [Command.chassis_speed 0 0 0]) ∧
    safety_step initController none (some (RobotEvent.sound 0)) =
      (initController, []) ∧
    safety_step initController none none = (initController, []) :=
  ⟨(handle_event_safety initController none).1,
   (handle_event_safety initController none).2.1 (RobotEvent.sound 0) rfl,
   (handle_event_safety initController none).2.2⟩

/-- C4: the ArmorHit safety path leaves every controller field unchanged —
in particular `previous_v` is not reset — while emitting the zero chassis
command; a keyboard-driven `send_command` run afterwards, with
`chassisVelocity` still equal to `previousChassisVelocity`, emits no
chassis command even though the override just stopped the robot. -/
theorem safety_override_frame (c : Controller) (push : Option TelemetryMessage)
    (h : c.v = c.previous_v) :
    (safety_step c push (some RobotEvent.armor_hit)).1 = c ∧
    (safety_step c push (some RobotEvent.armor_hit)).2 =
      [Command.chassis_speed 0 0 0] ∧
    (send_command c).2.filter isChassisCmd = [] := by
  refine ⟨rfl, by simp [safety_step, handle_event, isArmorHit], ?_⟩
  rw [send_command_cmds]
  by_cases h2 : c.v_gimbal = c.previous_v_gimbal <;> simp [h, h2, isChassisCmd]

/-- C4 witness: at the reachable state after pressing `'w'` — the robot is
moving, the override stops it physically, yet the following keyboard send is
suppressed. -/
theorem safety_override_frame_witness :
    (safety_step (on_press initController Key.charW).1 none
        (some RobotEvent.armor_hit)).1 = (on_press initController Key.charW).1 ∧
    (safety_step (on_press initController Key.charW).1 none
        (some RobotEvent.armor_hit)).2 = [Command.chassis_speed 0 0 0] ∧
    (send_command (on_press initController Key.charW).1).2.filter isChassisCmd = [] :=
  safety_override_frame (on_press initController Key.charW).1 none
    (reachable_goodState (Reachable.press Key.charW Reachable.init)).2.2.2.2.1

/-- C6: releasing an axis key zeroes exactly the velocity component that
key controls, from any controller state whatsoever — hence after any
sequence of presses and releases of that key and whatever the gear was at
any point. -/
theorem release_zeroes_axis (c : Controller) (k : Key) (h : isAxisKey k = true) :
    axisComponent k (on_release c k).1 = 0 := by
  cases k <;> simp_all [isAxisKey] <;>
    simp [on_release, axisComponent, isGearKey, send_command_state]

/-- C6 witness: press `'w'` (component becomes nonzero), release `'w'`, the
component is back to exactly 0. -/
theorem release_zeroes_axis_witness :
    isAxisKey Key.charW = true ∧
    axisComponent Key.charW
      (on_release (on_press initController Key.charW).1 Key.charW).1 = 0 :=
  ⟨rfl, release_zeroes_axis (on_press initController Key.charW).1 Key.charW rfl⟩

/-- C7: releasing a gear digit `d ∈ {1,…,5}` sets `gear := d` and recomputes
both per-press magnitudes, while every other field — both velocity pairs,
both previously-sent pairs, the ctrl flag — is unchanged and no command is
emitted; only a subsequent fresh press picks up the new magnitude. -/
theorem gear_release_updates_gear (c : Controller) (d : Nat)
    (h1 : 1 ≤ d) (h5 : d ≤ 5) :
    on_release c (Key.digit d) =
      ({ c with
          gear := d
          delta_v := (d : ℚ) * UNIT_DELTA_SPEED
          delta_d := (d : ℚ) * UNIT_DELTA_DEGREE }, ([], false)) ∧
    (on_press (on_release c (Key.digit d)).1 Key.charW).1.v.1 =
      (d : ℚ) * UNIT_DELTA_SPEED := by
  have hg : isGearKey (Key.digit d) = true := by simp [isGearKey, h1, h5]
  constructor
  · simp [on_release, hg, gearOf, update_gear]
  · simp [on_release, hg, gearOf, update_gear, on_press, send_command_state]

/-- C7 witness: with velocity in flight from gear 1, releasing `'3'` keeps
the old velocity and magnitudes take effect only at the next press. -/
theorem gear_release_updates_gear_witness :
    1 ≤ 3 ∧ 3 ≤ 5 ∧
    on_release (on_press initController Key.charW).1 (Key.digit 3) =
      ({ (on_press initController Key.charW).1 with
          gear := 3
          delta_v := (3 : ℚ) * UNIT_DELTA_SPEED
          delta_d := (3 : ℚ) * UNIT_DELTA_DEGREE }, ([], false)) ∧
    (on_press (on_release (on_press initController Key.charW).1
        (Key.digit 3)).1 Key.charW).1.v.1 = (3 : ℚ) * UNIT_DELTA_SPEED :=
  ⟨by decide, by decide,
   (gear_release_updates_gear (on_press initController Key.charW).1 3
      (by decide) (by decide)).1,
   (gear_release_updates_gear (on_press initController Key.charW).1 3
      (by decide) (by decide)).2⟩

/-- C8: for any key the handlers do not map — any unnamed key, or a digit
key outside `'1'`…`'5'` — both `on_press` and `on_release` leave every
field of a reachable controller state unchanged and emit no command. -/
theorem unmapped_key_noop {c : Controller} (k : Key) (h : Reachable c)
    (hk : isUnmappedKey k = true) :
    on_press c k = (c, ([], false)) ∧ on_release c k = (c, ([], false)) := by
  obtain ⟨-, -, -, -, h5, h6, -, -, -, -⟩ := reachable_goodState h
  have hnoop := send_command_noop h5 h6
  cases k <;> simp_all [isUnmappedKey, on_press, on_release, isGearKey]
  omega

/-- C8 witness: an unnamed key and the digit `'7'` at a concrete reachable
state. -/
theorem unmapped_key_noop_witness :
    isUnmappedKey (Key.other 0) = true ∧
    on_press (on_press initController Key.charW).1 (Key.other 0) =
      ((on_press initController Key.charW).1, ([], false)) ∧
    on_release (on_press initController Key.charW).1 (Key.digit 7) =
      ((on_press initController Key.charW).1, ([], false)) :=
  ⟨rfl,
   (unmapped_key_noop (Key.other 0)
      (Reachable.press Key.charW Reachable.init) rfl).1,
   (unmapped_key_noop (Key.digit 7)
      (Reachable.press Key.charW Reachable.init) rfl).2⟩

/-- C5: with the modifier held, pressing `'c'` zeroes both velocity
vectors, sends once — every command emitted is the zero chassis command or
the zero gimbal command, the zero chassis command is emitted whenever the
chassis velocity was nonzero and the zero gimbal command whenever the
gimbal velocity was nonzero — and signals the keyboard listener to stop. -/
theorem quit_chord {c : Controller} (h : Reachable c)
    (hc : c.ctrl_pressed = true) :
    (on_press c Key.charC).2.2 = true ∧
    (on_press c Key.charC).1.v = (0, 0) ∧
    (on_press c Key.charC).1.v_gimbal = (0, 0) ∧
    (∀ cmd ∈ (on_press c Key.charC).2.1,
        cmd = Command.chassis_speed 0 0 0 ∨ cmd = Command.gimbal_speed 0 0) ∧
    (c.v ≠ (0, 0) → Command.chassis_speed 0 0 0 ∈ (on_press c Key.charC).2.1) ∧
    (c.v_gimbal ≠ (0, 0) → Command.gimbal_speed 0 0 ∈ (on_press c Key.charC).2.1) := by
  obtain ⟨-, -, -, -, h5, h6, -, -, -, -⟩ := reachable_goodState h
  have hpress : on_press c Key.charC =
      ((send_command { c with v := (0, 0), v_gimbal := (0, 0) }).1,
       ((send_command { c with v := (0, 0), v_gimbal := (0, 0) }).2, true)) := by
    simp [on_press, hc]
  rw [hpress, send_command_cmds, send_command_state]
  split_ifs <;> simp_all

/-- C5 witness: ctrl down, `'w'` down (chassis moving), then `'c'` down —
the zero chassis command is sent and the listener is told to stop. -/
theorem quit_chord_witness :
    (on_press (on_press initController Key.ctrl).1 Key.charW).1.ctrl_pressed = true ∧
    Command.chassis_speed 0 0 0 ∈
      (on_press (on_press (on_press initController Key.ctrl).1 Key.charW).1
        Key.charC).2.1 ∧
    (on_press (on_press (on_press initController Key.ctrl).1 Key.charW).1
        Key.charC).2.2 = true := by
  have hr : Reachable (on_press (on_press initController Key.ctrl).1 Key.charW).1 :=
    Reachable.press Key.charW (Reachable.press Key.ctrl Reachable.init)
  have hc : (on_press (on_press initController Key.ctrl).1 Key.charW).1.ctrl_pressed
      = true := by
    simp [on_press, send_command_state, initController]
  have hv : (on_press (on_press initController Key.ctrl).1 Key.charW).1.v ≠ (0, 0) := by
    simp [on_press, send_command_state, initController, UNIT_DELTA_SPEED, Prod.ext_iff]
  obtain ⟨hstop, -, -, -, hchassis, -⟩ := quit_chord hr hc
  exact ⟨hc, hchassis hv, hstop⟩

/-- The reachable state refuting C2 as stated: press `'w'` at gear 1, then
release `'3'`; the chassis velocity keeps its gear-1 value while the gear is
now 3. -/
def gearShiftState : Controller :=
  (on_release (on_press initController Key.charW).1 (Key.digit 3)).1

/-- C2 counterexample: `gearShiftState` is reachable, its gear is 3, but its
chassis `x` component is neither `0` nor `±gear·UNIT_DELTA_SPEED` for the
current gear — the claimed invariant fails on the code. -/
theorem current_gear_range_counterexample :
    Reachable gearShiftState ∧
    gearShiftState.gear = 3 ∧
    gearShiftState.v.1 ≠ 0 ∧
    gearShiftState.v.1 ≠ (gearShiftState.gear : ℚ) * UNIT_DELTA_SPEED ∧
    gearShiftState.v.1 ≠ -((gearShiftState.gear : ℚ) * UNIT_DELTA_SPEED) := by
  refine ⟨Reachable.release (Key.digit 3) (Reachable.press Key.charW Reachable.init),
    ?_, ?_, ?_, ?_⟩ <;>
    simp [gearShiftState, on_release, on_press, isGearKey, gearOf, update_gear,
      send_command_state, initController, UNIT_DELTA_SPEED]
  norm_num

/-- C2 (amended): in every reachable state, each chassis velocity component
is `0` or `±g·UNIT_DELTA_SPEED` and each gimbal component `0` or
`±g·UNIT_DELTA_DEGREE` for some gear `g ∈ {1,…,5}` — the gear in force when
the component was last set, which the current gear need not equal. -/
theorem velocity_components_in_range {c : Controller} (h : Reachable c) :
    inSpeedRange c.v.1 ∧ inSpeedRange c.v.2 ∧
    inDegreeRange c.v_gimbal.1 ∧ inDegreeRange c.v_gimbal.2 := by
  obtain ⟨-, -, -, -, -, -, h7, h8, h9, h10⟩ := reachable_goodState h
  exact ⟨h7, h8, h9, h10⟩

/-- C2 (amended) witness: the amended invariant at the very state that
refutes the original claim. -/
theorem velocity_components_in_range_witness :
    inSpeedRange gearShiftState.v.1 ∧ inSpeedRange gearShiftState.v.2 ∧
    inDegreeRange gearShiftState.v_gimbal.1 ∧
    inDegreeRange gearShiftState.v_gimbal.2 :=
  velocity_components_in_range
    (Reachable.release (Key.digit 3) (Reachable.press Key.charW Reachable.init))

end Drive
